import Mathlib

/-!
Verification of the deployment-resolution and token-authenticated request
pipeline of the Earnings-V8-SAP_Env SDK layer.

Shallow embedding of:
* `gen_ai_hub/proxy/gen_ai_hub_proxy/client.py` (deployment matching and selection),
* `ai_api_client_sdk/helpers/authenticator.py` (token cache),
* `ai_api_client_sdk/helpers/rest_client.py` (error mapping, header assembly),
* `gen_ai_hub/orchestration/sse_client.py` (SSE event decoding),
* the key-casing conversion applied at the wire boundary.

Python strings are modelled as Lean `String` where only equality matters, as
`List Char` for the SSE line decoder, and as `List Nat` (Unicode code points)
for the casing conversion where character arithmetic matters.
-/

/-! ## Deployment registry (`gen_ai_hub/proxy/gen_ai_hub_proxy/client.py`) -/

/-- The `Deployment` record of `client.py`.  `created_at` is an absolute
creation timestamp; `additonal_parameters` keeps the spelling used in the source. -/
structure Deployment where
  url : String
  config_id : String
  config_name : String
  deployment_id : String
  model_name : String
  created_at : Nat
  additonal_parameters : List (String × String) := []
  custom_prediction_suffix : Option String := none
deriving DecidableEq, Repr

/-- The four model-identification keys of
`Deployment.get_model_identification_kwargs`. -/
inductive MatchKey where
| model_name
| deployment_id
| config_id
| config_name
deriving DecidableEq, Repr

/-- Embeds `getattr(deployment, key)` for the four identification keys; each is a
required string field of `Deployment`, so the lookup never yields `None`. -/
def attrOf (d : Deployment) : MatchKey → String
| .model_name => d.model_name
| .deployment_id => d.deployment_id
| .config_id => d.config_id
| .config_name => d.config_name

/-- The loop body of `_deployment_matches`: `match` starts `False`; a `None`
search value is skipped; a disagreeing attribute breaks with `False`; an
agreeing attribute sets `match` to `True`.  (The code also skips a criterion
whose deployment attribute is `None`; for the four identification keys the
attribute is a required string field, so that branch is unreachable.) -/
def matchLoop (d : Deployment) : Bool → List (MatchKey × Option String) → Bool
| m, [] => m
| m, (_, none) :: rest => matchLoop d m rest
| m, (k, some v) :: rest => if attrOf d k = v then matchLoop d true rest else false

/-- Embeds `_deployment_matches(deployment, **search_key_value)`. -/
def deployment_matches (d : Deployment) (kvs : List (MatchKey × Option String)) : Bool :=
  matchLoop d false kvs

/-- Matching as worded by the spec: the deployment matches iff, for every
criterion whose value is non-null, the corresponding deployment attribute
equals that value (null criteria are wildcards). -/
def deployment_matches_spec (d : Deployment) (kvs : List (MatchKey × Option String)) : Bool :=
  kvs.all (fun kv => match kv.2 with
    | none => true
    | some v => attrOf d kv.1 = v)

/-- At least one criterion carries a non-null value. -/
def hasCriterion (kvs : List (MatchKey × Option String)) : Bool :=
  kvs.any (fun kv => kv.2.isSome)

theorem matchLoop_eq (d : Deployment) (kvs : List (MatchKey × Option String)) :
    ∀ m : Bool, matchLoop d m kvs = ((m || hasCriterion kvs) && deployment_matches_spec d kvs) := by
  induction kvs with
  | nil =>
    intro m
    simp [matchLoop, hasCriterion, deployment_matches_spec]
  | cons kv rest ih =>
    intro m
    match kv with
    | (k, none) =>
      rw [matchLoop, ih m]
      simp [hasCriterion, deployment_matches_spec]
    | (k, some v) =>
      rw [matchLoop]
      by_cases hv : attrOf d k = v
      · rw [if_pos hv, ih true]
        simp [hasCriterion, deployment_matches_spec, hv]
      · rw [if_neg hv]
        simp [hasCriterion, deployment_matches_spec, hv]

/-- Per-scenario deployment construction results merged into an id-keyed
mapping: successive `deployments[deployment.id] = ...` assignments on a
Python dict (replace the value in place at an existing key, else append). -/
def depDictSet : List Deployment → Deployment → List Deployment
| [], d => [d]
| e :: rest, d =>
  if e.deployment_id = d.deployment_id then d :: rest else e :: depDictSet rest d

/-- Inside `update_deployments`: build the id-keyed `deployment_set` from the
freshly queried registry contents, deduplicating by deployment id. -/
def depDict (reg : List Deployment) : List Deployment :=
  reg.foldl depDictSet []

/-- Stable insertion of one deployment into a list sorted by `created_at`
descending (the stable Python `sorted` with a key and reverse=True). -/
def insertByCreated (d : Deployment) : List Deployment → List Deployment
| [] => [d]
| e :: rest => if e.created_at < d.created_at then d :: e :: rest else e :: insertByCreated d rest

/-- Embeds `sorted(deployments, key=lambda d: d.created_at, reverse=True)`. -/
def sortByCreatedDesc (l : List Deployment) : List Deployment :=
  l.foldl (fun acc d => insertByCreated d acc) []

/-- Embeds `GenAIHubProxyClient.update_deployments`: replace the cached snapshot
wholesale with the deduplicated, newest-first sorted registry contents.
`reg` stands for the concatenated per-scenario query results. -/
def update_deployments (reg : List Deployment) : List Deployment :=
  sortByCreatedDesc (depDict reg)

/-- Result of `get_deployments`: the list returned to the caller, the new
cached snapshot, and the number of registry refreshes performed. -/
structure GetStep where
  ds : List Deployment
  cache : List Deployment
  refreshes : Nat
deriving Repr

/-- Embeds `GenAIHubProxyClient.get_deployments`: refresh lazily when the cached
snapshot is empty, else serve the cache. -/
def get_deployments (cache reg : List Deployment) : GetStep :=
  if cache.isEmpty then ⟨update_deployments reg, update_deployments reg, 1⟩
  else ⟨cache, cache, 0⟩

/-- Outcome of `select_deployment`: a deployment, or one of the three
`ValueError`s the method raises. -/
inductive SelectOutcome where
| ok (d : Deployment)
| errNoCriteria
| errMultiple
| errNotFound (kvs : List (MatchKey × Option String))
deriving DecidableEq, Repr

/-- Result of `select_deployment` together with the resulting cached
snapshot and the number of registry refreshes performed during the call. -/
structure SelectStep where
  result : SelectOutcome
  cache : List Deployment
  refreshes : Nat
deriving Repr

/-- Embeds `GenAIHubProxyClient.select_deployment`: reject empty criteria; match
against `self.deployments` (which refreshes lazily when the cache is
empty); on zero matches refresh once more and rematch (the rematch again
reads `self.deployments`, which refreshes yet again if the snapshot is
still empty); then dispatch on the number of matches. -/
def select_deployment (raise_on_multiple : Bool) (kvs : List (MatchKey × Option String))
    (cache reg : List Deployment) : SelectStep :=
  if kvs.isEmpty then ⟨.errNoCriteria, cache, 0⟩
  else
    let s1 := get_deployments cache reg
    let m1 := s1.ds.filter (fun d => deployment_matches d kvs)
    let s2 : List Deployment × List Deployment × Nat :=
      if m1.isEmpty then
        let cache1 := update_deployments reg
        let g := get_deployments cache1 reg
        (g.ds.filter (fun d => deployment_matches d kvs), g.cache, s1.refreshes + 1 + g.refreshes)
      else (m1, s1.cache, s1.refreshes)
    let result : SelectOutcome :=
      match s2.1 with
      | [] => .errNotFound kvs
      | [d] => .ok d
      | d :: _ :: _ => if raise_on_multiple then .errMultiple else .ok d
    ⟨result, s2.2.1, s2.2.2⟩

/-- Claim C1 (corrected): `_deployment_matches` is not exactly the stated
AND-over-non-null-criteria iff — when every provided criterion is null the
spec predicate is vacuously true but the code returns `False`.  This
counterexample evaluates both at a concrete deployment and the criteria
mapping that sets all four keys to null. -/
theorem c1_counterexample :
    deployment_matches
        ⟨"https://u", "c1", "cn", "d1", "gpt-4o", 5, [], none⟩
        [(.model_name, none), (.deployment_id, none), (.config_id, none), (.config_name, none)]
      = false
    ∧ deployment_matches_spec
        ⟨"https://u", "c1", "cn", "d1", "gpt-4o", 5, [], none⟩
        [(.model_name, none), (.deployment_id, none), (.config_id, none), (.config_name, none)]
      = true := by
  constructor
  · rfl
  · rfl

/-- Claim C1 (amended): for every deployment and criteria mapping over the
four identification keys, the code matches iff at least one criterion is
non-null AND, for every non-null criterion, the attribute equals the value. -/
theorem c1_matching_semantics (d : Deployment) (kvs : List (MatchKey × Option String)) :
    deployment_matches d kvs = (hasCriterion kvs && deployment_matches_spec d kvs) := by
  rw [deployment_matches, matchLoop_eq]
  simp

/-- Claim C2: with a fixed snapshot of two deployments sharing a model name
(ordered newest-first, i.e. sorted by creation timestamp descending) and
distinct deployment ids, non-strict selection on the model name returns the
first (most recently created) deployment and strict selection raises the
multiple-match resolution error; no refresh happens. -/
theorem c2_ambiguity_handling (d1 d2 : Deployment) (m : String)
    (h1 : d1.model_name = m) (h2 : d2.model_name = m)
    (hid : d1.deployment_id ≠ d2.deployment_id)
    (hord : d2.created_at ≤ d1.created_at) (reg : List Deployment) :
    select_deployment false [(.model_name, some m)] [d1, d2] reg = ⟨.ok d1, [d1, d2], 0⟩
    ∧ select_deployment true [(.model_name, some m)] [d1, d2] reg = ⟨.errMultiple, [d1, d2], 0⟩
    ∧ ∀ e ∈ [d1, d2], e.created_at ≤ d1.created_at := by
  refine ⟨?_, ?_, ?_⟩
  · simp [select_deployment, get_deployments, deployment_matches, matchLoop, attrOf, h1, h2]
  · simp [select_deployment, get_deployments, deployment_matches, matchLoop, attrOf, h1, h2]
  · intro e he
    simp only [List.mem_cons, List.not_mem_nil, or_false] at he
    rcases he with rfl | rfl
    · exact le_rfl
    · exact hord

/-- Concrete instantiation of `c2_ambiguity_handling`. -/
theorem c2_witness :
    select_deployment false [(.model_name, some "gpt-4o")]
        [⟨"u1", "c1", "n1", "id1", "gpt-4o", 9, [], none⟩,
         ⟨"u2", "c2", "n2", "id2", "gpt-4o", 4, [], none⟩] []
      = ⟨.ok ⟨"u1", "c1", "n1", "id1", "gpt-4o", 9, [], none⟩,
         [⟨"u1", "c1", "n1", "id1", "gpt-4o", 9, [], none⟩,
          ⟨"u2", "c2", "n2", "id2", "gpt-4o", 4, [], none⟩], 0⟩
    ∧ select_deployment true [(.model_name, some "gpt-4o")]
        [⟨"u1", "c1", "n1", "id1", "gpt-4o", 9, [], none⟩,
         ⟨"u2", "c2", "n2", "id2", "gpt-4o", 4, [], none⟩] []
      = ⟨.errMultiple,
         [⟨"u1", "c1", "n1", "id1", "gpt-4o", 9, [], none⟩,
          ⟨"u2", "c2", "n2", "id2", "gpt-4o", 4, [], none⟩], 0⟩ := by
  have h := c2_ambiguity_handling
    ⟨"u1", "c1", "n1", "id1", "gpt-4o", 9, [], none⟩
    ⟨"u2", "c2", "n2", "id2", "gpt-4o", 4, [], none⟩
    "gpt-4o" rfl rfl (by decide) (by decide) []
  exact ⟨h.1, h.2.1⟩

/-- Claim C3 (counterexample): with an empty cached snapshot and a registry
that yields no deployments, `select_deployment` performs three registry
refresh attempts (lazy refresh inside the first read, the explicit
zero-match refresh, and another lazy refresh inside the rematch read)
before failing with the no-deployment-found error — not exactly one. -/
theorem c3_counterexample :
    (select_deployment false [(.model_name, some "gpt-4o")] [] []).refreshes = 3
    ∧ (select_deployment false [(.model_name, some "gpt-4o")] [] []).result
        = .errNotFound [(.model_name, some "gpt-4o")] := by
  constructor
  · rfl
  · rfl

/-- Claim C3 (amended): starting from an empty cached snapshot, if the
refreshed snapshot contains a match the call performs exactly one refresh;
if it contains none the call fails with the no-deployment-found error
naming the criteria after two refresh attempts (three when the refreshed
snapshot is itself empty). -/
theorem c3_refresh_counts (strict : Bool) (kvs : List (MatchKey × Option String))
    (reg : List Deployment) (hkv : kvs.isEmpty = false) :
    (((update_deployments reg).filter (fun d => deployment_matches d kvs)).isEmpty = false →
      (select_deployment strict kvs [] reg).refreshes = 1)
    ∧ (((update_deployments reg).filter (fun d => deployment_matches d kvs)).isEmpty = true →
      (select_deployment strict kvs [] reg).result = .errNotFound kvs
      ∧ (select_deployment strict kvs [] reg).refreshes
          = (if (update_deployments reg).isEmpty then 3 else 2)) := by
  constructor
  · intro hm
    simp [select_deployment, get_deployments, hkv, hm]
  · intro hm
    have hm' : (update_deployments reg).filter (fun d => deployment_matches d kvs) = [] :=
      List.isEmpty_iff.mp hm
    by_cases hreg : (update_deployments reg).isEmpty
    · exact ⟨by simp [select_deployment, get_deployments, hkv, hm, hm', hreg],
        by simp [select_deployment, get_deployments, hkv, hm, hm', hreg]⟩
    · exact ⟨by simp [select_deployment, get_deployments, hkv, hm, hm', hreg],
        by simp [select_deployment, get_deployments, hkv, hm, hm', hreg]⟩

/-- Concrete instantiation of `c3_refresh_counts`: an empty cache with a
one-deployment registry that matches (one refresh), and with a registry
whose only deployment does not match (two refreshes, not-found error). -/
theorem c3_witness :
    (select_deployment false [(.model_name, some "gpt-4o")] []
        [⟨"u1", "c1", "n1", "id1", "gpt-4o", 9, [], none⟩]).refreshes = 1
    ∧ (select_deployment false [(.model_name, some "tiiuae--falcon-40b")] []
        [⟨"u1", "c1", "n1", "id1", "gpt-4o", 9, [], none⟩]).result
        = .errNotFound [(.model_name, some "tiiuae--falcon-40b")]
    ∧ (select_deployment false [(.model_name, some "tiiuae--falcon-40b")] []
        [⟨"u1", "c1", "n1", "id1", "gpt-4o", 9, [], none⟩]).refreshes = 2 := by
  refine ⟨?_, ?_, ?_⟩
  · exact (c3_refresh_counts false [(.model_name, some "gpt-4o")]
      [⟨"u1", "c1", "n1", "id1", "gpt-4o", 9, [], none⟩] rfl).1 (by decide)
  · exact ((c3_refresh_counts false [(.model_name, some "tiiuae--falcon-40b")]
      [⟨"u1", "c1", "n1", "id1", "gpt-4o", 9, [], none⟩] rfl).2 (by decide)).1
  · have h := ((c3_refresh_counts false [(.model_name, some "tiiuae--falcon-40b")]
      [⟨"u1", "c1", "n1", "id1", "gpt-4o", 9, [], none⟩] rfl).2 (by decide)).2
    rw [h]
    decide

/-! ## Token cache (`ai_api_client_sdk/helpers/authenticator.py`) -/

/-- Mutable token-cache state of `Authenticator`: `self.token` (the full
`"Bearer ..."` string) and `self.token_expiry_date` (absolute UTC time,
modelled in seconds). -/
structure AuthState where
  token : Option String
  token_expiry_date : Option Int
deriving DecidableEq, Repr

/-- The reply of the token endpoint as `get_token` observes it: HTTP
status, raw body text, and the parse results of the `access_token` and
`expires_in` fields of the JSON body (`none` when the field is missing
or, for `expires_in`, not an integer). -/
structure TokenResponse where
  status_code : Nat
  text : String
  access_token : Option String
  expires_in : Option Int
deriving DecidableEq, Repr

/-- Value produced by one `get_token` call: the bearer token, or one of the
authenticator exceptions mapped from the status code, or the generic
status-500 `AIAPIAuthenticatorException` wrapping a body-parse failure. -/
inductive AuthOutcome where
| ok (token : String)
| errInvalidRequest (msg : String)
| errAuthorization (msg : String)
| errForbidden (msg : String)
| errMethodNotAllowed (msg : String)
| errTimeout (msg : String)
| errServer (status : Nat) (msg : String)
| errParse (status : Nat) (msg : String)
deriving DecidableEq, Repr

/-- Embeds `Authenticator._should_refresh_token`: refresh when nothing is cached or
the cached expiry is less than the 60-minute (3600 s) buffer away. -/
def should_refresh_token (st : AuthState) (now : Int) : Bool :=
  match st.token, st.token_expiry_date with
  | none, _ => true
  | _, none => true
  | some _, some exp => exp - now < 3600

/-- Embeds `Authenticator.get_token` under the lock, for one call at instant `now`
whose (possibly unused) network round trip would yield `resp`: returns the
outcome, the state after the call, and whether a network fetch occurred.
Status mapping and the parse sequence mirror the source: `self.token` is
assigned from `access_token` before `expires_in` is parsed, so a failing
`expires_in` parse leaves the new token with the old expiry. -/
def get_token (st : AuthState) (now : Int) (resp : TokenResponse) :
    AuthOutcome × AuthState × Bool :=
  if should_refresh_token st now then
    if resp.status_code = 400 then (.errInvalidRequest resp.text, st, true)
    else if resp.status_code = 401 then (.errAuthorization resp.text, st, true)
    else if resp.status_code = 403 then (.errForbidden resp.text, st, true)
    else if resp.status_code = 405 then (.errMethodNotAllowed resp.text, st, true)
    else if resp.status_code = 408 then (.errTimeout resp.text, st, true)
    else if resp.status_code / 100 ≠ 2 then (.errServer resp.status_code resp.text, st, true)
    else
      match resp.access_token with
      | none => (.errParse 500 resp.text, st, true)
      | some a =>
        match resp.expires_in with
        | none => (.errParse 500 resp.text, { st with token := some ("Bearer " ++ a) }, true)
        | some e =>
          (.ok ("Bearer " ++ a),
           { token := some ("Bearer " ++ a), token_expiry_date := some (now + e) }, true)
  else ((match st.token with | some t => .ok t | none => .ok ""), st, false)

/-- A sequence of `get_token` calls, each given its instant and the reply a
fetch at that instant would produce; returns the outcomes, the final state
and the total number of network fetches. -/
def runCalls (st : AuthState) : List (Int × TokenResponse) → List AuthOutcome × AuthState × Nat
| [] => ([], st, 0)
| (now, resp) :: rest =>
  let r := get_token st now resp
  let rr := runCalls r.2.1 rest
  (r.1 :: rr.1, rr.2.1, (if r.2.2 then 1 else 0) + rr.2.2)

theorem get_token_fetches (st : AuthState) (now : Int) (resp : TokenResponse)
    (h : should_refresh_token st now = true) : (get_token st now resp).2.2 = true := by
  rw [get_token, if_pos h]
  repeat' split
  all_goals rfl

/-- Claim C5: a `get_token` call fetches iff nothing is cached or the cached
expiry minus the current instant is below the 60-minute buffer (first
conjunct, for well-formed cache states where token and expiry are cached
together); and every sequence of calls made while the remaining lifetime
of the cached token stays at or above the buffer performs no fetch, leaves
the state unchanged, and returns the cached `"Bearer "`-prefixed token on
every call (second conjunct). -/
theorem c5_token_cache :
    (∀ (st : AuthState) (now : Int) (resp : TokenResponse),
      (st.token = none ↔ st.token_expiry_date = none) →
      ((get_token st now resp).2.2 = true ↔
        st.token = none ∨ ∃ e, st.token_expiry_date = some e ∧ e - now < 3600))
    ∧ (∀ (a : String) (e : Int) (calls : List (Int × TokenResponse)),
      (∀ c ∈ calls, 3600 ≤ e - c.1) →
      runCalls ⟨some ("Bearer " ++ a), some e⟩ calls
        = (calls.map (fun _ => .ok ("Bearer " ++ a)), ⟨some ("Bearer " ++ a), some e⟩, 0)) := by
  constructor
  · intro st now resp hwf
    match hst : st.token, hse : st.token_expiry_date with
    | none, none =>
      constructor
      · intro _
        exact Or.inl rfl
      · intro _
        exact get_token_fetches st now resp (by simp [should_refresh_token, hst])
    | none, some e =>
      exact absurd (hwf.mp hst) (by rw [hse]; exact fun h => Option.noConfusion h)
    | some t, none =>
      exact absurd (hwf.mpr hse) (by rw [hst]; exact fun h => Option.noConfusion h)
    | some t, some e =>
      by_cases hlt : e - now < 3600
      · constructor
        · intro _
          exact Or.inr ⟨e, rfl, hlt⟩
        · intro _
          refine get_token_fetches st now resp ?_
          simp [should_refresh_token, hst, hse]
          exact hlt
      · rw [show (get_token st now resp).2.2 = false by
          rw [get_token, if_neg (by simp [should_refresh_token, hst, hse, hlt])]]
        simp only [Bool.false_eq_true, false_iff]
        rintro (h | ⟨e', he', hlt'⟩)
        · exact Option.noConfusion h
        · rw [Option.some.injEq] at he'
          exact hlt (he' ▸ hlt')
  · intro a e calls hcalls
    induction calls with
    | nil => rfl
    | cons c rest ih =>
      have hc : 3600 ≤ e - c.1 := hcalls c (List.mem_cons_self c rest)
      have hrest := ih (fun x hx => hcalls x (List.mem_cons_of_mem c hx))
      rw [runCalls]
      have hnr : should_refresh_token ⟨some ("Bearer " ++ a), some e⟩ c.1 = false := by
        simp [should_refresh_token]
        omega
      rw [show get_token ⟨some ("Bearer " ++ a), some e⟩ c.1 c.2
            = (.ok ("Bearer " ++ a), ⟨some ("Bearer " ++ a), some e⟩, false) by
        rw [get_token, hnr]
        simp]
      simp [hrest]

/-- Concrete instantiation of `c5_token_cache`: a cached token one day from
expiry, probed twice within the buffer window, and the fetch-decision iff
at a state below the buffer. -/
theorem c5_witness :
    runCalls ⟨some ("Bearer " ++ "abc"), some 90000⟩
        [(0, ⟨200, "", some "x", some 1⟩), (600, ⟨200, "", some "x", some 1⟩)]
      = ([.ok ("Bearer " ++ "abc"), .ok ("Bearer " ++ "abc")],
         ⟨some ("Bearer " ++ "abc"), some 90000⟩, 0)
    ∧ ((get_token ⟨some "Bearer old", some 5000⟩ 2000 ⟨200, "", some "x", some 1⟩).2.2 = true ↔
        (⟨some "Bearer old", some 5000⟩ : AuthState).token = none
        ∨ ∃ e, (⟨some "Bearer old", some 5000⟩ : AuthState).token_expiry_date = some e
            ∧ e - 2000 < 3600) := by
  constructor
  · exact c5_token_cache.2 "abc" 90000
      [(0, ⟨200, "", some "x", some 1⟩), (600, ⟨200, "", some "x", some 1⟩)] (by decide)
  · exact c5_token_cache.1 ⟨some "Bearer old", some 5000⟩ 2000 ⟨200, "", some "x", some 1⟩
      (by simp)

/-- Claim C6 (code evaluated at the failing input): a 2xx reply whose body
parses an `access_token` but no usable `expires_in` leaves the cache
partially updated — `self.token` is already overwritten while
`self.token_expiry_date` keeps its old value — before the fatal
parse error is raised.  This contradicts the claim that token and expiry
are always written together and both left unchanged on a parse failure. -/
theorem c6_partial_update_at_failing_input :
    get_token ⟨some "Bearer old", some 5000⟩ 2000 ⟨200, "body", some "new", none⟩
      = (.errParse 500 "body", ⟨some "Bearer new", some 5000⟩, true)
    ∧ (get_token ⟨some "Bearer old", some 5000⟩ 2000 ⟨200, "body", some "new", none⟩).2.1.token
        ≠ (⟨some "Bearer old", some 5000⟩ : AuthState).token
    ∧ (get_token ⟨some "Bearer old", some 5000⟩ 2000 ⟨200, "body", some "new", none⟩).2.1.token_expiry_date
        = (⟨some "Bearer old", some 5000⟩ : AuthState).token_expiry_date := by
  refine ⟨by decide, by decide, by decide⟩

/-! ## REST transport (`ai_api_client_sdk/helpers/rest_client.py`) -/

/-- The `error` object of a structured JSON error body.  `message` and
`code` are read with direct subscripts (a missing one raises `KeyError`);
`requestId` and `details` are read with `.get`. -/
structure ErrorBody where
  message : Option String
  code : Option String
  requestId : Option String
  details : Option String
deriving DecidableEq, Repr

/-- An HTTP response as `_handle_request` observes it after the physical
request: the status code, the raw body text, and — abstracting
`response.json()` — the `error` object when the body decodes to a JSON
dict containing an `error` key (`none` when the body is not JSON, not a
dict, or has no `error` key). -/
structure HttpResponse where
  status_code : Nat
  text : String
  error_body : Option ErrorBody
deriving DecidableEq, Repr

/-- The exceptions `_handle_request` / `raise_ai_api_exception` can raise,
or success.  `errKeyLookup` stands for the Python `KeyError` escaping
`raise_ai_api_exception` when the error object lacks `message` or `code`. -/
inductive ApiOutcome where
| ok
| errAuthorization (description error_message : String)
| errInvalidRequest (description error_message error_code : String)
    (request_id details : Option String)
| errNotFound (description error_message error_code : String)
    (request_id details : Option String)
| errPreconditionFailed (description error_message error_code : String)
    (request_id details : Option String)
| errServer (status_code : Nat) (description error_message : String)
    (error_code request_id details : Option String)
| errKeyLookup
deriving DecidableEq, Repr

/-- Builds the error context string of `_handle_request`; `method` is the lowercase verb
the `get`/`post`/`patch`/`delete` wrappers pass in. -/
def error_description (method path : String) : String :=
  "Failed to " ++ method ++ " " ++ path

/-- Embeds `RestClient.raise_ai_api_exception`: choose the exception kind from the
status code, extracting message/code/requestId/details from the `error`
object. -/
def raise_ai_api_exception (desc : String) (status : Nat) (e : ErrorBody) : ApiOutcome :=
  match e.message, e.code with
  | some m, some c =>
    if status = 400 then .errInvalidRequest desc m c e.requestId e.details
    else if status = 404 then .errNotFound desc m c e.requestId e.details
    else if status = 412 then .errPreconditionFailed desc m c e.requestId e.details
    else .errServer status desc m (some c) e.requestId e.details
  | _, _ => .errKeyLookup

/-- The response-handling tail of `RestClient._handle_request` (after the
physical request and retries): 401 first, then the structured-error-body
check, then the generic non-2xx check; 2xx otherwise succeeds (the body is
decoded and decamelized, which the casing section models). -/
def handle_request_response (method path : String) (resp : HttpResponse) : ApiOutcome :=
  let desc := error_description method path
  if resp.status_code = 401 then .errAuthorization desc resp.text
  else
    match resp.error_body with
    | some e => raise_ai_api_exception desc resp.status_code e
    | none =>
      if resp.status_code / 100 ≠ 2 then .errServer resp.status_code desc resp.text none none none
      else .ok

/-- Claim C7: the error mapping of the transport — 401 raises the authorization
error; a structured `error` body raises the API error kind chosen by
status (400 invalid request, 404 not found, 412 precondition failed, else
generic server error carrying the status), with message, code, requestId
and details taken from the error object; a non-2xx response without a
structured error body raises the generic server error with the raw body
text; and every one of these carries the `Failed to <method> <path>`
context. -/
theorem c7_error_mapping (method path : String) (resp : HttpResponse) :
    (resp.status_code = 401 →
      handle_request_response method path resp
        = .errAuthorization (error_description method path) resp.text)
    ∧ (∀ e m c, resp.status_code ≠ 401 → resp.error_body = some e →
        e.message = some m → e.code = some c →
      (resp.status_code = 400 →
        handle_request_response method path resp
          = .errInvalidRequest (error_description method path) m c e.requestId e.details)
      ∧ (resp.status_code = 404 →
        handle_request_response method path resp
          = .errNotFound (error_description method path) m c e.requestId e.details)
      ∧ (resp.status_code = 412 →
        handle_request_response method path resp
          = .errPreconditionFailed (error_description method path) m c e.requestId e.details)
      ∧ (resp.status_code ≠ 400 → resp.status_code ≠ 404 → resp.status_code ≠ 412 →
        handle_request_response method path resp
          = .errServer resp.status_code (error_description method path) m (some c)
              e.requestId e.details))
    ∧ (resp.status_code ≠ 401 → resp.error_body = none → resp.status_code / 100 ≠ 2 →
      handle_request_response method path resp
        = .errServer resp.status_code (error_description method path) resp.text
            none none none) := by
  refine ⟨?_, ?_, ?_⟩
  · intro h401
    simp [handle_request_response, h401]
  · intro e m c h401 hbody hm hc
    refine ⟨?_, ?_, ?_, ?_⟩
    · intro h400
      simp [handle_request_response, raise_ai_api_exception, h401, hbody, hm, hc, h400]
    · intro h404
      have h400 : resp.status_code ≠ 400 := by omega
      simp [handle_request_response, raise_ai_api_exception, h401, hbody, hm, hc, h400, h404]
    · intro h412
      have h400 : resp.status_code ≠ 400 := by omega
      have h404 : resp.status_code ≠ 404 := by omega
      simp [handle_request_response, raise_ai_api_exception, h401, hbody, hm, hc, h400, h404,
        h412]
    · intro h400 h404 h412
      simp [handle_request_response, raise_ai_api_exception, h401, hbody, hm, hc, h400, h404,
        h412]
  · intro h401 hbody h2xx
    simp [handle_request_response, h401, hbody, h2xx]

/-- Concrete instantiation of `c7_error_mapping`: the 404 example of the spec
with error body message "m" and code "c", a 401, and a plain-text 503. -/
theorem c7_witness :
    handle_request_response "get" "/lm/deployments"
        ⟨404, "raw", some ⟨some "m", some "c", some "r1", none⟩⟩
      = .errNotFound "Failed to get /lm/deployments" "m" "c" (some "r1") none
    ∧ handle_request_response "get" "/lm/deployments" ⟨401, "denied", none⟩
      = .errAuthorization "Failed to get /lm/deployments" "denied"
    ∧ handle_request_response "post" "/v2/chat" ⟨503, "oops", none⟩
      = .errServer 503 "Failed to post /v2/chat" "oops" none none none := by
  refine ⟨?_, ?_, ?_⟩
  · exact ((c7_error_mapping "get" "/lm/deployments"
      ⟨404, "raw", some ⟨some "m", some "c", some "r1", none⟩⟩).2.1
      ⟨some "m", some "c", some "r1", none⟩ "m" "c"
      (by decide) rfl rfl rfl).2.1 rfl
  · exact (c7_error_mapping "get" "/lm/deployments" ⟨401, "denied", none⟩).1 rfl
  · exact (c7_error_mapping "post" "/v2/chat" ⟨503, "oops", none⟩).2.2 (by decide) rfl (by decide)

/-- Python-dict assignment on an association list: replace the value in
place at an existing key, else append the new pair. -/
def dictSet : List (String × String) → String → String → List (String × String)
| [], k, v => [(k, v)]
| p :: rest, k, v => if p.1 = k then (k, v) :: rest else p :: dictSet rest k v

/-- The Python `dict.update`: assign every pair of `other` into `d` in order. -/
def dictUpdate (d other : List (String × String)) : List (String × String) :=
  other.foldl (fun acc p => dictSet acc p.1 p.2) d

/-- The Python `dict.get`: the value stored at `k`, if any (keys are unique
in a Python dict, so first-occurrence lookup is the dict lookup). -/
def dictGet : List (String × String) → String → Option String
| [], _ => none
| p :: rest, k => if p.1 = k then some p.2 else dictGet rest k

/-- The constant `self.resource_group_header` of `RestClient.__init__`. -/
def resource_group_header : String := "AI-Resource-Group"

/-- The constant `self.client_type_header` of `RestClient.__init__`. -/
def client_type_header : String := "AI-Client-Type"

/-- The dict `self.headers` as built in `RestClient.__init__` from the optional
`resource_group` and `client_type` constructor arguments. -/
def init_headers (resource_group client_type : Option String) : List (String × String) :=
  (match resource_group with
   | some rg => [(resource_group_header, rg)]
   | none => []) ++
  (match client_type with
   | some ct => [(client_type_header, ct)]
   | none => [])

/-- The header-assembly steps of `RestClient._handle_request`:
`headers.update(self.headers.copy())` (instance defaults overwrite the
per-call dict), then the Authorization entry is assigned the result of
`self.get_token()`, then
the per-call `resource_group` argument, when given, overwrites the
resource-group header. -/
def assemble_headers (perCall instHeaders : List (String × String)) (token : String)
    (rgArg : Option String) : List (String × String) :=
  let h1 := dictUpdate perCall instHeaders
  let h2 := dictSet h1 "Authorization" token
  match rgArg with
  | some rg => dictSet h2 resource_group_header rg
  | none => h2

theorem dictGet_dictSet (d : List (String × String)) (k v k' : String) :
    dictGet (dictSet d k v) k' = if k' = k then some v else dictGet d k' := by
  induction d with
  | nil =>
    by_cases h : k' = k
    · simp [dictSet, dictGet, h]
    · have h' : ¬ (k = k') := fun hh => h hh.symm
      simp [dictSet, dictGet, h, h']
  | cons p rest ih =>
    by_cases hp : p.1 = k
    · by_cases h : k' = k
      · simp [dictSet, dictGet, hp, h]
      · have h' : ¬ (k = k') := fun hh => h hh.symm
        have hpk : ¬ (p.1 = k') := by rw [hp]; exact h'
        simp [dictSet, dictGet, hp, h, h', hpk]
    · by_cases h : k' = k
      · subst h
        simp [dictSet, dictGet, hp, ih]
      · by_cases hpk : p.1 = k'
        · simp [dictSet, dictGet, hp, h, hpk]
        · simp [dictSet, dictGet, hp, h, hpk, ih]

/-- Claim C10: in the header assembly of `_handle_request` the instance default
headers overwrite same-keyed per-call headers (shown for both default
keys, the resource-group header and the client-type header), the
`Authorization` header always ends up as the result of the token provider, and
a per-call `resource_group` argument does override the default
resource-group header. -/
theorem c10_header_overwrite (perCall : List (String × String)) (token r0 c0 : String)
    (rgArg : Option String) :
    (rgArg = none →
      dictGet (assemble_headers perCall (init_headers (some r0) (some c0)) token rgArg)
        resource_group_header = some r0)
    ∧ dictGet (assemble_headers perCall (init_headers (some r0) (some c0)) token rgArg)
        client_type_header = some c0
    ∧ dictGet (assemble_headers perCall (init_headers (some r0) (some c0)) token rgArg)
        "Authorization" = some token
    ∧ (∀ r, rgArg = some r →
      dictGet (assemble_headers perCall (init_headers (some r0) (some c0)) token rgArg)
        resource_group_header = some r) := by
  refine ⟨?_, ?_, ?_, ?_⟩
  · rintro rfl
    simp [assemble_headers, init_headers, dictUpdate, resource_group_header,
      client_type_header, dictGet_dictSet]
  · cases rgArg with
    | none =>
      simp [assemble_headers, init_headers, dictUpdate, resource_group_header,
        client_type_header, dictGet_dictSet]
    | some r =>
      simp [assemble_headers, init_headers, dictUpdate, resource_group_header,
        client_type_header, dictGet_dictSet]
  · cases rgArg with
    | none =>
      simp [assemble_headers, init_headers, dictUpdate, resource_group_header,
        client_type_header, dictGet_dictSet]
    | some r =>
      simp [assemble_headers, init_headers, dictUpdate, resource_group_header,
        client_type_header, dictGet_dictSet]
  · rintro r rfl
    simp [assemble_headers, init_headers, dictUpdate, resource_group_header,
      client_type_header, dictGet_dictSet]

/-- Concrete instantiation of `c10_header_overwrite`: per-call headers that
try to set both default keys and Authorization are overwritten. -/
theorem c10_witness :
    dictGet (assemble_headers
        [("AI-Resource-Group", "call-rg"), ("AI-Client-Type", "call-ct"),
         ("Authorization", "call-auth")]
        (init_headers (some "default-rg") (some "sdk")) "Bearer tok" none)
      resource_group_header = some "default-rg"
    ∧ dictGet (assemble_headers
        [("AI-Resource-Group", "call-rg"), ("AI-Client-Type", "call-ct"),
         ("Authorization", "call-auth")]
        (init_headers (some "default-rg") (some "sdk")) "Bearer tok" none)
      client_type_header = some "sdk"
    ∧ dictGet (assemble_headers
        [("AI-Resource-Group", "call-rg"), ("AI-Client-Type", "call-ct"),
         ("Authorization", "call-auth")]
        (init_headers (some "default-rg") (some "sdk")) "Bearer tok" none)
      "Authorization" = some "Bearer tok"
    ∧ dictGet (assemble_headers
        [("AI-Resource-Group", "call-rg"), ("AI-Client-Type", "call-ct"),
         ("Authorization", "call-auth")]
        (init_headers (some "default-rg") (some "sdk")) "Bearer tok" (some "arg-rg"))
      resource_group_header = some "arg-rg" := by
  have h1 := c10_header_overwrite
    [("AI-Resource-Group", "call-rg"), ("AI-Client-Type", "call-ct"),
     ("Authorization", "call-auth")] "Bearer tok" "default-rg" "sdk" none
  have h2 := c10_header_overwrite
    [("AI-Resource-Group", "call-rg"), ("AI-Client-Type", "call-ct"),
     ("Authorization", "call-auth")] "Bearer tok" "default-rg" "sdk" (some "arg-rg")
  exact ⟨h1.1 rfl, h1.2.1, h1.2.2.1, h2.2.2.2 "arg-rg" rfl⟩

/-! ## Key-casing conversion at the wire boundary

`_handle_request` runs `humps.camelize` on outgoing bodies/params and
`humps.decamelize` on decoded responses.  The `humps` library itself is not
part of the repository sources, so its conversion is modelled from the
spec.  Keys are modelled as lists of Unicode code points (code point 95 is
the underscore). -/

/-- A lowercase ASCII letter code point. -/
def isLowerN (n : Nat) : Bool := 97 ≤ n && n ≤ 122

/-- An uppercase ASCII letter code point. -/
def isUpperN (n : Nat) : Bool := 65 ≤ n && n ≤ 90

/-- An ASCII digit code point. -/
def isDigitN (n : Nat) : Bool := 48 ≤ n && n ≤ 57

/-- A code point allowed inside a snake_case segment. -/
def okChar (n : Nat) : Bool := isLowerN n || isDigitN n

/-- ASCII upcasing of one code point. -/
def upN (n : Nat) : Nat := if isLowerN n then n - 32 else n

/-- ASCII downcasing of one code point. -/
def loN (n : Nat) : Nat := if isUpperN n then n + 32 else n

/-- The code points of a string literal. -/
def codes (s : String) : List Nat := s.data.map Char.toNat

/-- Modelled from the spec: `humps.camelize` on one key (the library is
not under the repository sources).  snake_case becomes camelCase: an
underscore is dropped and the following letter upcased. -/
def camelizeK : List Nat → List Nat
| [] => []
| c :: rest =>
  if c = 95 then
    match rest with
    | [] => [c]
    | d :: rest2 => upN d :: camelizeK rest2
  else c :: camelizeK rest

/-- Modelled from the spec: `humps.decamelize` on one key.  camelCase
becomes snake_case: an underscore is inserted before each uppercase
letter, which is downcased. -/
def decamelizeK : List Nat → List Nat
| [] => []
| c :: rest => if isUpperN c then 95 :: loN c :: decamelizeK rest else c :: decamelizeK rest

/-- Everything after the first character of a well-formed snake_case key:
lowercase letters and digits, with every underscore followed by a
lowercase letter. -/
def snakeTail : List Nat → Bool
| [] => true
| c :: rest =>
  if c = 95 then
    match rest with
    | [] => false
    | d :: _ => isLowerN d && snakeTail rest
  else okChar c && snakeTail rest

/-- A well-formed snake_case key: nonempty, starts with a lowercase
letter, and its characters satisfy `snakeTail`. -/
def snakeKey : List Nat → Bool
| [] => false
| c :: rest => isLowerN c && snakeTail (c :: rest)

theorem isUpperN_upN (d : Nat) (h : isLowerN d = true) : isUpperN (upN d) = true := by
  simp [isLowerN] at h
  simp [upN, isLowerN, isUpperN, h]
  omega

theorem loN_upN (d : Nat) (h : isLowerN d = true) : loN (upN d) = d := by
  rw [loN, if_pos (isUpperN_upN d h)]
  simp [isLowerN] at h
  simp [upN, isLowerN, h]
  omega

theorem isUpperN_of_ok (c : Nat) (h : okChar c = true) : isUpperN c = false := by
  simp [okChar, isLowerN, isDigitN] at h
  simp [isUpperN]
  omega

theorem snakeTail_us (d : Nat) (rest : List Nat) :
    snakeTail (95 :: d :: rest) = (isLowerN d && snakeTail (d :: rest)) := rfl

theorem snakeTail_cons (c : Nat) (rest : List Nat) (hc : ¬ (c = 95)) :
    snakeTail (c :: rest) = (okChar c && snakeTail rest) := by
  rw [snakeTail.eq_def]
  simp [hc]

theorem camelizeK_us (d : Nat) (rest2 : List Nat) :
    camelizeK (95 :: d :: rest2) = upN d :: camelizeK rest2 := rfl

theorem camelizeK_cons (c : Nat) (rest : List Nat) (hc : ¬ (c = 95)) :
    camelizeK (c :: rest) = c :: camelizeK rest := by
  rw [camelizeK.eq_def]
  simp [hc]

theorem decamelize_camelize (l : List Nat) (h : snakeTail l = true) :
    decamelizeK (camelizeK l) = l := by
  induction l using camelizeK.induct with
  | case1 => rfl
  | case2 =>
    simp [snakeTail] at h
  | case3 d rest2 ih =>
    rw [snakeTail_us, Bool.and_eq_true] at h
    obtain ⟨h1, h2⟩ := h
    have hd95 : ¬ (d = 95) := by simp [isLowerN] at h1; omega
    rw [snakeTail_cons d rest2 hd95, Bool.and_eq_true] at h2
    rw [camelizeK_us]
    rw [decamelizeK, if_pos (isUpperN_upN d h1), loN_upN d h1, ih h2.2]
  | case4 c rest hc ih =>
    rw [snakeTail_cons c rest hc, Bool.and_eq_true] at h
    rw [camelizeK_cons c rest hc]
    have hcu : ¬ (isUpperN c = true) := by simp [isUpperN_of_ok c h.1]
    rw [decamelizeK, if_neg hcu]
    rw [ih h.2]

mutual

/-- A JSON value as the transport sees request bodies and responses:
scalars, and objects with code-point-list keys. -/
inductive JVal where
| prim : String → JVal
| num : Int → JVal
| obj : JObj → JVal

/-- The field list of a JSON object. -/
inductive JObj where
| nil : JObj
| cons : List Nat → JVal → JObj → JObj

end

mutual

/-- Modelled from the spec: `humps.camelize` on a whole body — every key,
recursively. -/
def camelizeJ : JVal → JVal
| .prim s => .prim s
| .num n => .num n
| .obj o => .obj (camelizeO o)

def camelizeO : JObj → JObj
| .nil => .nil
| .cons k v t => .cons (camelizeK k) (camelizeJ v) (camelizeO t)

end

mutual

/-- Modelled from the spec: `humps.decamelize` on a whole decoded
response — every key, recursively. -/
def decamelizeJ : JVal → JVal
| .prim s => .prim s
| .num n => .num n
| .obj o => .obj (decamelizeO o)

def decamelizeO : JObj → JObj
| .nil => .nil
| .cons k v t => .cons (decamelizeK k) (decamelizeJ v) (decamelizeO t)

end

mutual

/-- Every key of the value, recursively, is a well-formed snake_case key. -/
def snakeKeysJ : JVal → Bool
| .prim _ => true
| .num _ => true
| .obj o => snakeKeysO o

def snakeKeysO : JObj → Bool
| .nil => true
| .cons k v t => snakeKey k && snakeKeysJ v && snakeKeysO t

end

mutual

theorem roundtripJ (v : JVal) (h : snakeKeysJ v = true) : decamelizeJ (camelizeJ v) = v := by
  cases v with
  | prim s => rfl
  | num n => rfl
  | obj o =>
    rw [camelizeJ, decamelizeJ, roundtripO o h]

theorem roundtripO (o : JObj) (h : snakeKeysO o = true) : decamelizeO (camelizeO o) = o := by
  cases o with
  | nil => rfl
  | cons k v t =>
    rw [snakeKeysO, Bool.and_eq_true, Bool.and_eq_true] at h
    rw [camelizeO, decamelizeO]
    have hk : snakeTail k = true := by
      cases k with
      | nil => simp [snakeKey] at h
      | cons c r =>
        have hck := h.1.1
        rw [snakeKey, Bool.and_eq_true] at hck
        exact hck.2
    rw [decamelize_camelize k hk, roundtripJ v h.1.2, roundtripO t h.2]

end

/-- Claim C8: the wire-boundary casing conversion in the transport —
`{"model_name": "x", "nested": {"max_tokens": 5}}` is transmitted as
`{"modelName": "x", "nested": {"maxTokens": 5}}`, `{"requestId": "abc"}`
decodes as `{"request_id": "abc"}`, and decamelize after camelize is the
identity on every body whose keys (recursively) are snake_case. -/
theorem c8_casing_roundtrip :
    camelizeJ (.obj (.cons (codes "model_name") (.prim "x")
        (.cons (codes "nested") (.obj (.cons (codes "max_tokens") (.num 5) .nil)) .nil)))
      = .obj (.cons (codes "modelName") (.prim "x")
        (.cons (codes "nested") (.obj (.cons (codes "maxTokens") (.num 5) .nil)) .nil))
    ∧ decamelizeJ (.obj (.cons (codes "requestId") (.prim "abc") .nil))
      = .obj (.cons (codes "request_id") (.prim "abc") .nil)
    ∧ (∀ v : JVal, snakeKeysJ v = true → decamelizeJ (camelizeJ v) = v) := by
  refine ⟨rfl, rfl, ?_⟩
  intro v h
  exact roundtripJ v h

/-- Concrete instantiation of the round-trip conjunct of
`c8_casing_roundtrip` at the example body of the spec. -/
theorem c8_witness :
    decamelizeJ (camelizeJ (.obj (.cons (codes "model_name") (.prim "x")
        (.cons (codes "nested") (.obj (.cons (codes "max_tokens") (.num 5) .nil)) .nil))))
      = .obj (.cons (codes "model_name") (.prim "x")
        (.cons (codes "nested") (.obj (.cons (codes "max_tokens") (.num 5) .nil)) .nil)) := by
  exact c8_casing_roundtrip.2.2
    (.obj (.cons (codes "model_name") (.prim "x")
      (.cons (codes "nested") (.obj (.cons (codes "max_tokens") (.num 5) .nil)) .nil)))
    (by decide)

/-! ## SSE decoding (`gen_ai_hub/orchestration/sse_client.py`) -/

/-- The `SSEClient` default event data marker, `"data: "`.  Lines are the
stripped lines `iter_lines` yields, modelled as character lists. -/
def event_marker : List Char := "data: ".data

/-- The `SSEClient` default terminal sentinel payload, `"[DONE]"`. -/
def done_sentinel : List Char := "[DONE]".data

/-- How an iteration over the stream ended: the terminal sentinel (the
stream is closed and `StopIteration` raised), exhaustion of the underlying
lines (likewise closed), or an `OrchestrationError` raised by
`_parse_event_data` for an event carrying a `code`. -/
inductive StreamEnd where
| finalMessage
| exhausted
| errorRaised
deriving DecidableEq, Repr

/-- The `__next__` loop of `SSEClient` run to completion over the stripped
lines of the response: skip empty lines and lines without the `"data: "`
marker; strip the marker; stop at the `[DONE]` sentinel; raise on an event
whose parsed JSON carries a `code` (abstracted by `isErr` on the raw event
data); otherwise yield the event.  Returns all yielded events and how the
iteration ended. -/
def sse_events (isErr : List Char → Bool) : List (List Char) → List (List Char) × StreamEnd
| [] => ([], .exhausted)
| line :: rest =>
  if line.isEmpty || !(event_marker.isPrefixOf line) then sse_events isErr rest
  else
    let dat := line.drop event_marker.length
    if dat = done_sentinel then ([], .finalMessage)
    else if isErr dat then ([], .errorRaised)
    else
      let r := sse_events isErr rest
      (dat :: r.1, r.2)

theorem sse_events_skip (isErr : List Char → Bool) (junk rest : List (List Char))
    (h : ∀ l ∈ junk, l = [] ∨ event_marker.isPrefixOf l = false) :
    sse_events isErr (junk ++ rest) = sse_events isErr rest := by
  induction junk with
  | nil => rfl
  | cons l t ih =>
    have hl := h l (List.mem_cons_self l t)
    have hcond : (l.isEmpty || !(event_marker.isPrefixOf l)) = true := by
      rcases hl with rfl | hl
      · rfl
      · simp [hl]
    rw [List.cons_append, sse_events, if_pos hcond]
    exact ih (fun x hx => h x (List.mem_cons_of_mem l hx))

theorem marker_prefix_append (payload : List Char) :
    event_marker.isPrefixOf (event_marker ++ payload) = true := by
  rw [List.isPrefixOf_iff_prefix]
  exact List.prefix_append event_marker payload

theorem marker_cond_false (payload : List Char) :
    ((event_marker ++ payload).isEmpty
      || !(event_marker.isPrefixOf (event_marker ++ payload))) = false := by
  simp [marker_prefix_append, event_marker]

theorem sse_events_done (isErr : List Char → Bool) (rest : List (List Char)) :
    sse_events isErr ((event_marker ++ done_sentinel) :: rest) = ([], .finalMessage) := by
  rw [sse_events, if_neg (by simp [marker_cond_false])]
  simp only [List.drop_left]
  simp

theorem sse_events_data (isErr : List Char → Bool) (payload : List Char)
    (rest : List (List Char)) (hp : payload ≠ done_sentinel) (he : isErr payload = false) :
    sse_events isErr ((event_marker ++ payload) :: rest)
      = ((payload :: (sse_events isErr rest).1), (sse_events isErr rest).2) := by
  rw [sse_events, if_neg (by simp [marker_cond_false])]
  simp only [List.drop_left]
  rw [if_neg hp, if_neg (by simp [he])]

/-- Claim C9: a stream whose lines consist of one `"data: "` event record
and then the `"data: [DONE]"` sentinel — possibly interleaved with blank
or non-prefixed lines, and possibly followed by further lines — yields
exactly the one event preceding the sentinel, yields nothing after the
sentinel, and stops cleanly via the terminal sentinel; skipped lines are
never yielded. -/
theorem c9_terminal_sentinel (isErr : List Char → Bool)
    (junk1 junk2 post : List (List Char)) (payload : List Char)
    (h1 : ∀ l ∈ junk1, l = [] ∨ event_marker.isPrefixOf l = false)
    (h2 : ∀ l ∈ junk2, l = [] ∨ event_marker.isPrefixOf l = false)
    (hp : payload ≠ done_sentinel) (he : isErr payload = false) :
    sse_events isErr
        (junk1 ++ [event_marker ++ payload] ++ junk2 ++ [event_marker ++ done_sentinel] ++ post)
      = ([payload], .finalMessage) := by
  simp only [List.append_assoc]
  rw [sse_events_skip isErr junk1 _ h1, List.singleton_append]
  rw [sse_events_data isErr payload _ hp he]
  rw [sse_events_skip isErr junk2 _ h2, List.singleton_append]
  rw [sse_events_done]

/-- Concrete instantiation of `c9_terminal_sentinel`: a comment line and a
blank line around one event, then the sentinel and an ignored trailing
line. -/
theorem c9_witness :
    sse_events (fun _ => false)
        ([": keep-alive".data, []] ++ ["data: ".data ++ "ev1".data] ++ [[]]
          ++ ["data: ".data ++ "[DONE]".data] ++ ["data: late".data])
      = (["ev1".data], .finalMessage) := by
  exact c9_terminal_sentinel (fun _ => false) [": keep-alive".data, []] [[]] ["data: late".data]
    "ev1".data (by decide) (by decide) (by decide) rfl
